import Mathlib

/-!
Shallow embedding of the progressive-interval reminder engine of
`reminder_open_it` (source of authority: `web_reminder.py`; the two desktop
GUIs duplicate the same scheduling logic).

The embedding translates, from the source:
  * `ReminderConfig` (pydantic model) and its validation,
  * `HistoryManager` (`add`, `update_note_by_timestamp`, `clear`),
  * `ReminderEngine` (`start`, `stop`, `_open_now`, `_schedule_next`,
    `_run_loop`) as a step machine on an explicit state record.

Wall-clock effects (the timestamp written into a history record, whether the
browser open call raised, the measured `actual_sec` delta) are supplied by an
environment value per firing, so the timing logic itself stays deterministic.
-/

set_option maxRecDepth 8000

namespace ReminderOpenIt

/-- Python `s.startswith(pre)`: `pre` is a prefix of `s`, on the character
sequences. -/
def pyStartswith (s pre : String) : Bool :=
  pre.data.isPrefixOf s.data

/-- Python list indexing semantics `xs[i]`: a negative index counts from the
end (`len + i`); out of range is `none` (an `IndexError` in Python). -/
def pyIndex (xs : List α) (i : Int) : Option α :=
  let j : Int := if i < 0 then (xs.length : Int) + i else i
  if 0 ≤ j then xs.get? j.toNat else none

/-- Python slice `xs[-n:]`: the last `n` elements when `n ≥ 1`; for `n = 0`
the slice is `xs[0:]`, i.e. the whole list (`-0 == 0` in Python). -/
def pySliceLast (n : Nat) (xs : List α) : List α :=
  if n = 0 then xs else xs.drop (xs.length - n)

/-- `ReminderConfig` (pydantic model in `web_reminder.py`): the raw request
payload, minute-valued times as (possibly non-positive) integers. -/
structure ReminderConfig where
  url : String
  total_min : Int
  first_min : Int
  second_min : Int
  subseq_min : Int
  chrome_path : String := ""
  sound_enabled : Bool := true
  sound_file : String := ""
  expectation : String := ""
deriving Repr, DecidableEq

/-- The pydantic validation of `ReminderConfig`: `url` has `min_length=5` and
must start with `http://` or `https://`; the four minute fields are `gt=0`. -/
def ReminderConfig.valid (cfg : ReminderConfig) : Bool :=
  decide (5 ≤ cfg.url.length)
    && (pyStartswith cfg.url "http://" || pyStartswith cfg.url "https://")
    && decide (0 < cfg.total_min)
    && decide (0 < cfg.first_min)
    && decide (0 < cfg.second_min)
    && decide (0 < cfg.subseq_min)

/-- One history entry as built by `ReminderEngine._record_history`. -/
structure HistoryRecord where
  timestamp : String
  count : Nat
  url : String
  status : String
  note : String
  expected_sec : Option Nat
  actual_sec : Option Int
  expectation : String
deriving Repr, DecidableEq

/-- `HistoryManager`: the in-memory record list plus its retention cap
(`max_records`, 500 by default). Persistence to `history.json` is
best-effort I/O and is not part of the timing semantics. -/
structure HistoryManager where
  max_records : Nat
  records : List HistoryRecord
deriving Repr, DecidableEq

/-- `HistoryManager.add`: append, then trim to the last `max_records`
entries when the list exceeds the cap (Python `records[-max_records:]`). -/
def HistoryManager.add (h : HistoryManager) (r : HistoryRecord) : HistoryManager :=
  let rs := h.records ++ [r]
  { h with records := if h.max_records < rs.length then pySliceLast h.max_records rs else rs }

/-- `HistoryManager.clear`: empty the record list. -/
def HistoryManager.clear (h : HistoryManager) : HistoryManager :=
  { h with records := [] }

/-- `HistoryManager.update_note_by_timestamp`: walk `reversed(records)`, and
at the first (i.e. most recent) record whose `timestamp` matches, rewrite its
`note` and return it; return `none` with the list unchanged when no record
matches. -/
def updateNoteByTimestamp (timestamp note : String) :
    List HistoryRecord → Option HistoryRecord × List HistoryRecord
  | [] => (none, [])
  | r :: rest =>
    match updateNoteByTimestamp timestamp note rest with
    | (some u, rest') => (some u, r :: rest')
    | (none, rest') =>
      if r.timestamp = timestamp then
        let r' := { r with note := note }
        (some r', r' :: rest')
      else (none, r :: rest')

/-- Errors surfaced by the `/api/history/note` route. -/
inductive NoteError where
  | notFound
deriving Repr, DecidableEq

/-- The `add_note` route when a `timestamp` selector is given: delegate to
`update_note_by_timestamp`; a `none` result becomes an HTTP 404
(`未找到该时间戳的记录`), leaving the stored records untouched. -/
def addNoteWithTimestamp (records : List HistoryRecord) (timestamp note : String) :
    Except NoteError (HistoryRecord × List HistoryRecord) :=
  match updateNoteByTimestamp timestamp note records with
  | (some u, rs) => .ok (u, rs)
  | (none, _) => .error .notFound

/-- Per-firing environment: the wall-clock data and side-effect outcome that
`_open_now` / `_record_history` observe at one firing. `openOk = false`
models the `webbrowser.open` call raising, with message `errMsg`. -/
structure FireEnv where
  timestamp : String
  openOk : Bool
  errMsg : String
  actual_sec : Option Int
deriving Repr, DecidableEq

/-- The mutable state of `ReminderEngine` (fields set in `__init__`). -/
structure ReminderEngine where
  running : Bool
  elapsed : Nat
  count : Nat
  total_sec : Nat
  intervals : List Nat
  subseq_sec : Nat
  url : String
  chrome_path : String
  sound_enabled : Bool
  sound_file : String
  seconds_until_next : Nat
  pending_wait : Nat
  status_msg : String
  stop_event : Bool
  last_expected : Option Nat
  current_expectation : String
  history : HistoryManager
deriving Repr, DecidableEq

/-- A fresh engine as built by `ReminderEngine.__init__` (history starts
with the default cap of 500 and whatever records were loaded). -/
def ReminderEngine.init (records : List HistoryRecord) : ReminderEngine where
  running := false
  elapsed := 0
  count := 0
  total_sec := 0
  intervals := []
  subseq_sec := 0
  url := ""
  chrome_path := ""
  sound_enabled := true
  sound_file := ""
  seconds_until_next := 0
  pending_wait := 0
  status_msg := "待机中"
  stop_event := false
  last_expected := none
  current_expectation := ""
  history := { max_records := 500, records := records }

/-- The two synchronous failures of starting a session: pydantic rejecting
the payload (`InvalidConfigError` in the spec) and `ReminderEngine.start`
raising `RuntimeError("已在运行中")` (`AlreadyRunningError`). -/
inductive StartError where
  | invalidConfig
  | alreadyRunning
deriving Repr, DecidableEq

/-- The `/api/start` path: pydantic validation of the payload, then
`ReminderEngine.start`. On either failure the engine is returned untouched;
on success every session field is reset (minutes converted to seconds,
`intervals = [first*60, second*60]`). -/
def ReminderEngine.start (e : ReminderEngine) (cfg : ReminderConfig) :
    ReminderEngine × Option StartError :=
  if cfg.valid = false then (e, some .invalidConfig)
  else if e.running then (e, some .alreadyRunning)
  else
    ({ e with
        running := true
        elapsed := 0
        count := 0
        total_sec := (cfg.total_min * 60).toNat
        intervals := [(cfg.first_min * 60).toNat, (cfg.second_min * 60).toNat]
        subseq_sec := (cfg.subseq_min * 60).toNat
        url := cfg.url
        chrome_path := cfg.chrome_path.trim
        sound_enabled := cfg.sound_enabled
        sound_file := cfg.sound_file.trim
        current_expectation := cfg.expectation.trim
        stop_event := false
        status_msg := "运行中"
        last_expected := none },
      none)

/-- `ReminderEngine.stop`: a no-op unless running; otherwise clear `running`,
set the stop event (cancelling the countdown loop) and the status label. -/
def ReminderEngine.stop (e : ReminderEngine) : ReminderEngine :=
  if e.running then
    { e with running := false, stop_event := true, status_msg := "已停止" }
  else e

/-- `ReminderEngine._record_history`: build one `HistoryRecord` for the
firing just performed and `add` it. Python's
`self.last_expected if self.last_expected else None` maps `some 0` to
`none` (falsy zero). -/
def ReminderEngine.recordHistory (e : ReminderEngine) (env : FireEnv)
    (success : Bool) : ReminderEngine :=
  let entry : HistoryRecord :=
    { timestamp := env.timestamp
      count := e.count
      url := e.url
      status := if success then "success" else "failed"
      note := ""
      expected_sec :=
        match e.last_expected with
        | some w => if w = 0 then none else some w
        | none => none
      actual_sec := env.actual_sec
      expectation := e.current_expectation }
  { e with history := e.history.add entry }

/-- `ReminderEngine._open_now`: increment the firing counter, attempt the
URL open (outcome given by `env.openOk`), set the status message
accordingly, and always record a history entry (`finally` block). -/
def ReminderEngine.openNow (env : FireEnv) (e : ReminderEngine) : ReminderEngine :=
  let e1 := { e with count := e.count + 1 }
  let e2 :=
    if env.openOk then
      { e1 with status_msg := "第 " ++ toString e1.count ++ " 次提醒已触发" }
    else
      { e1 with status_msg := "打开失败: " ++ env.errMsg }
  e2.recordHistory env env.openOk

/-- The wait computation at the top of `ReminderEngine._schedule_next`:
`intervals[count - 1]` while `count <= len(intervals)`, else `subseq_sec`.
(The engine only calls this with `count ≥ 1`, right after `_open_now`.) -/
def ReminderEngine.selectWait (e : ReminderEngine) : Nat :=
  if e.count ≤ e.intervals.length then
    (pyIndex e.intervals ((e.count : Int) - 1)).getD 0
  else e.subseq_sec

/-- `ReminderEngine._schedule_next`: pick the wait; if arming it would reach
the total duration (`elapsed + wait >= total_sec`), do not arm — zero the
countdown, report completion and `stop()` (which overwrites the status with
`已停止`); otherwise arm `pending_wait`, `last_expected` and the countdown. -/
def ReminderEngine.scheduleNext (e : ReminderEngine) : ReminderEngine :=
  let wait := e.selectWait
  if e.total_sec ≤ e.elapsed + wait then
    ({ e with seconds_until_next := 0, pending_wait := 0, status_msg := "完成" }).stop
  else
    { e with pending_wait := wait, last_expected := some wait, seconds_until_next := wait }

/-- The firing step in the body of `_run_loop` once the countdown hit zero:
`elapsed += pending_wait; _open_now(); _schedule_next()`. -/
def ReminderEngine.fireStep (env : FireEnv) (e : ReminderEngine) : ReminderEngine :=
  (ReminderEngine.openNow env { e with elapsed := e.elapsed + e.pending_wait }).scheduleNext

/-- The immediate firing at the top of `_run_loop`, before the while loop:
`_open_now(); _schedule_next()` (no `elapsed` increment). -/
def ReminderEngine.initialFire (env : FireEnv) (e : ReminderEngine) : ReminderEngine :=
  (ReminderEngine.openNow env e).scheduleNext

/-- One iteration of the `while self.running and not self.stop_event` loop:
a one-second tick decrements the countdown; at zero the engine fires.
The environment of the firing of ordinal `n` is `envs (n - 1)`, i.e.
`envs e.count` just before that firing increments `count`. -/
def ReminderEngine.loopStep (envs : Nat → FireEnv) (e : ReminderEngine) : ReminderEngine :=
  if e.running = true ∧ e.stop_event = false then
    if 0 < e.seconds_until_next then
      { e with seconds_until_next := e.seconds_until_next - 1 }
    else
      e.fireStep (envs e.count)
  else e

/-- `n` iterations of the countdown loop. -/
def ReminderEngine.runLoop (envs : Nat → FireEnv) (e : ReminderEngine) : Nat → ReminderEngine
  | 0 => e
  | n + 1 => ReminderEngine.loopStep envs (ReminderEngine.runLoop envs e n)

/-- The engine state reached by a successful `start` followed by the
worker thread's immediate firing and `n` loop iterations. -/
def ReminderEngine.session (e : ReminderEngine) (cfg : ReminderConfig)
    (envs : Nat → FireEnv) (n : Nat) : ReminderEngine :=
  ReminderEngine.runLoop envs (ReminderEngine.initialFire (envs 0) (e.start cfg).1) n

/-- The wait `_schedule_next` selects right after the firing of ordinal `k`
(so `count = k` at selection time): `intervals[k-1]` while `k ≤ 2`, then the
fixed subsequent interval. -/
def waitAfter (ints : List Nat) (sub k : Nat) : Nat :=
  if k ≤ ints.length then ints.getD (k - 1) 0 else sub

/-- Invariant maintained by every state of a running session: the consumed
time plus the armed wait stays below the total duration, and while running
the armed wait is exactly the one selected by the ordinal of the last
firing, with the countdown within it and the stop event clear. -/
structure Inv (e : ReminderEngine) : Prop where
  bound : e.elapsed + e.pending_wait < e.total_sec
  run_count : e.running = true → 1 ≤ e.count
  run_wait : e.running = true → e.pending_wait = waitAfter e.intervals e.subseq_sec e.count
  run_sec : e.running = true → e.seconds_until_next ≤ e.pending_wait
  run_stop : e.running = true → e.stop_event = false

/-- What holds of every state of a session started with config `cfg`: the
`Inv` invariant, plus the session parameters recorded at `start` (minutes
converted to seconds). -/
def GoodSession (cfg : ReminderConfig) (s : ReminderEngine) : Prop :=
  Inv s ∧ s.total_sec = (cfg.total_min * 60).toNat ∧
    s.intervals = [(cfg.first_min * 60).toNat, (cfg.second_min * 60).toNat] ∧
    s.subseq_sec = (cfg.subseq_min * 60).toNat

/-- A valid sample configuration with three distinct intervals. -/
def sampleCfg : ReminderConfig where
  url := "https://www.notion.so/"
  total_min := 100
  first_min := 1
  second_min := 2
  subseq_min := 3

/-- A configuration whose URL lacks an `http(s)://` scheme. -/
def badCfg : ReminderConfig where
  url := "www.notion.so"
  total_min := 60
  first_min := 5
  second_min := 10
  subseq_min := 15

/-- Environment of a firing whose URL open succeeds. -/
def sampleEnv : FireEnv where
  timestamp := "2024-01-01T09:00:00"
  openOk := true
  errMsg := ""
  actual_sec := none

/-- Environment of a firing whose URL open raises. -/
def failEnv : FireEnv where
  timestamp := "2024-01-01T09:05:00"
  openOk := false
  errMsg := "no browser"
  actual_sec := none

/-- A fresh idle engine. -/
def idleEngine : ReminderEngine := ReminderEngine.init []

/-- An environment stream where every URL open succeeds. -/
def sampleEnvs : Nat → FireEnv := fun _ => sampleEnv

/-- An environment stream where every URL open raises. -/
def failEnvs : Nat → FireEnv := fun _ => failEnv

/-- A mid-session engine state: firing 1 has happened, the armed wait has
just counted down to zero, so the next loop iteration fires ordinal 2. -/
def runningEngine : ReminderEngine where
  running := true
  elapsed := 60
  count := 1
  total_sec := 6000
  intervals := [60, 120]
  subseq_sec := 180
  url := "https://www.notion.so/"
  chrome_path := ""
  sound_enabled := true
  sound_file := ""
  seconds_until_next := 0
  pending_wait := 60
  status_msg := "运行中"
  stop_event := false
  last_expected := some 60
  current_expectation := ""
  history := { max_records := 500, records := [] }

/-- A session state at its completion point: the countdown for the third
armed wait has expired and arming a fourth wait would reach the total. -/
def almostDoneEngine : ReminderEngine where
  running := true
  elapsed := 180
  count := 3
  total_sec := 240
  intervals := [60, 120]
  subseq_sec := 180
  url := "https://www.notion.so/"
  chrome_path := ""
  sound_enabled := true
  sound_file := ""
  seconds_until_next := 0
  pending_wait := 180
  status_msg := "运行中"
  stop_event := false
  last_expected := some 180
  current_expectation := ""
  history := { max_records := 500, records := [] }

/-- A sample history record. -/
def sampleRecord (ts : String) (k : Nat) : HistoryRecord where
  timestamp := ts
  count := k
  url := "https://www.notion.so/"
  status := "success"
  note := ""
  expected_sec := some 60
  actual_sec := none
  expectation := ""

section Lemmas

variable (env : FireEnv) (e : ReminderEngine)

@[simp] lemma stop_count : e.stop.count = e.count := by
  unfold ReminderEngine.stop; split <;> rfl

@[simp] lemma stop_elapsed : e.stop.elapsed = e.elapsed := by
  unfold ReminderEngine.stop; split <;> rfl

@[simp] lemma stop_total : e.stop.total_sec = e.total_sec := by
  unfold ReminderEngine.stop; split <;> rfl

@[simp] lemma stop_intervals : e.stop.intervals = e.intervals := by
  unfold ReminderEngine.stop; split <;> rfl

@[simp] lemma stop_subseq : e.stop.subseq_sec = e.subseq_sec := by
  unfold ReminderEngine.stop; split <;> rfl

@[simp] lemma stop_pending : e.stop.pending_wait = e.pending_wait := by
  unfold ReminderEngine.stop; split <;> rfl

@[simp] lemma stop_sec : e.stop.seconds_until_next = e.seconds_until_next := by
  unfold ReminderEngine.stop; split <;> rfl

@[simp] lemma stop_history : e.stop.history = e.history := by
  unfold ReminderEngine.stop; split <;> rfl

@[simp] lemma stop_running : e.stop.running = false := by
  unfold ReminderEngine.stop; split <;> simp_all

@[simp] lemma openNow_count : (ReminderEngine.openNow env e).count = e.count + 1 := by
  cases h : env.openOk <;>
    simp [ReminderEngine.openNow, ReminderEngine.recordHistory, h]

@[simp] lemma openNow_elapsed : (ReminderEngine.openNow env e).elapsed = e.elapsed := by
  cases h : env.openOk <;>
    simp [ReminderEngine.openNow, ReminderEngine.recordHistory, h]

@[simp] lemma openNow_total : (ReminderEngine.openNow env e).total_sec = e.total_sec := by
  cases h : env.openOk <;>
    simp [ReminderEngine.openNow, ReminderEngine.recordHistory, h]

@[simp] lemma openNow_intervals : (ReminderEngine.openNow env e).intervals = e.intervals := by
  cases h : env.openOk <;>
    simp [ReminderEngine.openNow, ReminderEngine.recordHistory, h]

@[simp] lemma openNow_subseq : (ReminderEngine.openNow env e).subseq_sec = e.subseq_sec := by
  cases h : env.openOk <;>
    simp [ReminderEngine.openNow, ReminderEngine.recordHistory, h]

@[simp] lemma openNow_pending : (ReminderEngine.openNow env e).pending_wait = e.pending_wait := by
  cases h : env.openOk <;>
    simp [ReminderEngine.openNow, ReminderEngine.recordHistory, h]

@[simp] lemma openNow_sec :
    (ReminderEngine.openNow env e).seconds_until_next = e.seconds_until_next := by
  cases h : env.openOk <;>
    simp [ReminderEngine.openNow, ReminderEngine.recordHistory, h]

@[simp] lemma openNow_running : (ReminderEngine.openNow env e).running = e.running := by
  cases h : env.openOk <;>
    simp [ReminderEngine.openNow, ReminderEngine.recordHistory, h]

@[simp] lemma openNow_stop_event : (ReminderEngine.openNow env e).stop_event = e.stop_event := by
  cases h : env.openOk <;>
    simp [ReminderEngine.openNow, ReminderEngine.recordHistory, h]

@[simp] lemma openNow_last_expected :
    (ReminderEngine.openNow env e).last_expected = e.last_expected := by
  cases h : env.openOk <;>
    simp [ReminderEngine.openNow, ReminderEngine.recordHistory, h]

@[simp] lemma openNow_url : (ReminderEngine.openNow env e).url = e.url := by
  cases h : env.openOk <;>
    simp [ReminderEngine.openNow, ReminderEngine.recordHistory, h]

end Lemmas

section SchedulingLemmas

variable (env : FireEnv) (e : ReminderEngine) (envs : Nat → FireEnv)

lemma scheduleNext_eq :
    e.scheduleNext =
      if e.total_sec ≤ e.elapsed + e.selectWait then
        ReminderEngine.stop
          { e with seconds_until_next := 0, pending_wait := 0, status_msg := "完成" }
      else
        { e with pending_wait := e.selectWait, last_expected := some e.selectWait,
                 seconds_until_next := e.selectWait } := rfl

@[simp] lemma scheduleNext_count : e.scheduleNext.count = e.count := by
  rw [scheduleNext_eq]; split <;> simp

@[simp] lemma scheduleNext_elapsed : e.scheduleNext.elapsed = e.elapsed := by
  rw [scheduleNext_eq]; split <;> simp

@[simp] lemma scheduleNext_total : e.scheduleNext.total_sec = e.total_sec := by
  rw [scheduleNext_eq]; split <;> simp

@[simp] lemma scheduleNext_intervals : e.scheduleNext.intervals = e.intervals := by
  rw [scheduleNext_eq]; split <;> simp

@[simp] lemma scheduleNext_subseq : e.scheduleNext.subseq_sec = e.subseq_sec := by
  rw [scheduleNext_eq]; split <;> simp

@[simp] lemma scheduleNext_history : e.scheduleNext.history = e.history := by
  rw [scheduleNext_eq]; split <;> simp

lemma selectWait_eq (hk : 1 ≤ e.count) :
    e.selectWait = waitAfter e.intervals e.subseq_sec e.count := by
  unfold ReminderEngine.selectWait waitAfter pyIndex
  have h1 : ¬ ((e.count : Int) - 1 < 0) := by omega
  have h2 : (0 : Int) ≤ (e.count : Int) - 1 := by omega
  have h3 : ((e.count : Int) - 1).toNat = e.count - 1 := by omega
  split
  · simp only [if_neg h1, if_pos h2, h3, List.get?_eq_getElem?, List.getD_eq_getElem?_getD]
  · rfl

lemma waitAfter_pair (f s sub k : Nat) (hk : 1 ≤ k) :
    waitAfter [f, s] sub k = if k = 1 then f else if k = 2 then s else sub := by
  unfold waitAfter
  match k, hk with
  | 1, _ => rfl
  | 2, _ => rfl
  | (n + 3), _ =>
    rw [if_neg (by simp), if_neg (by omega), if_neg (by omega)]

lemma inv_fireStep (h : Inv e) (hrun : e.running = true) : Inv (e.fireStep env) := by
  have hstop := h.run_stop hrun
  have hb := h.bound
  unfold ReminderEngine.fireStep
  set x := ReminderEngine.openNow env { e with elapsed := e.elapsed + e.pending_wait } with hx
  have hxc : x.count = e.count + 1 := by rw [hx]; simp
  have hxe : x.elapsed = e.elapsed + e.pending_wait := by rw [hx]; simp
  have hxt : x.total_sec = e.total_sec := by rw [hx]; simp
  have hxv : x.stop_event = false := by rw [hx]; simp [hstop]
  rw [scheduleNext_eq]
  split
  case isTrue hif =>
    refine ⟨?_, ?_, ?_, ?_, ?_⟩
    · simp only [stop_elapsed, stop_pending, stop_total]
      show x.elapsed + 0 < x.total_sec
      rw [hxe, hxt]; omega
    · intro hr; rw [stop_running] at hr; exact absurd hr (by simp)
    · intro hr; rw [stop_running] at hr; exact absurd hr (by simp)
    · intro hr; rw [stop_running] at hr; exact absurd hr (by simp)
    · intro hr; rw [stop_running] at hr; exact absurd hr (by simp)
  case isFalse hif =>
    refine ⟨?_, ?_, ?_, ?_, ?_⟩
    · show x.elapsed + x.selectWait < x.total_sec
      exact lt_of_not_le hif
    · intro _
      show 1 ≤ x.count
      omega
    · intro _
      show x.selectWait = waitAfter x.intervals x.subseq_sec x.count
      exact selectWait_eq x (by omega)
    · intro _
      show x.selectWait ≤ x.selectWait
      exact le_rfl
    · intro _
      show x.stop_event = false
      exact hxv

end SchedulingLemmas

section LoopLemmas

variable (env : FireEnv) (e : ReminderEngine) (envs : Nat → FireEnv)
variable (cfg : ReminderConfig)

lemma inv_loopStep (h : Inv e) : Inv (e.loopStep envs) := by
  unfold ReminderEngine.loopStep
  split
  case isTrue hg =>
    split
    case isTrue hs =>
      exact ⟨h.bound, fun _ => h.run_count hg.1, fun _ => h.run_wait hg.1,
        fun _ => by
          have := h.run_sec hg.1
          show e.seconds_until_next - 1 ≤ e.pending_wait
          omega,
        fun _ => hg.2⟩
    case isFalse hs =>
      exact inv_fireStep (envs e.count) e h hg.1
  case isFalse hg =>
    exact h

@[simp] lemma fireStep_total : (e.fireStep env).total_sec = e.total_sec := by
  unfold ReminderEngine.fireStep; simp

@[simp] lemma fireStep_intervals : (e.fireStep env).intervals = e.intervals := by
  unfold ReminderEngine.fireStep; simp

@[simp] lemma fireStep_subseq : (e.fireStep env).subseq_sec = e.subseq_sec := by
  unfold ReminderEngine.fireStep; simp

@[simp] lemma fireStep_count : (e.fireStep env).count = e.count + 1 := by
  unfold ReminderEngine.fireStep; simp

lemma loopStep_total : (e.loopStep envs).total_sec = e.total_sec := by
  unfold ReminderEngine.loopStep
  split
  · split
    · rfl
    · simp
  · rfl

lemma loopStep_intervals : (e.loopStep envs).intervals = e.intervals := by
  unfold ReminderEngine.loopStep
  split
  · split
    · rfl
    · simp
  · rfl

lemma loopStep_subseq : (e.loopStep envs).subseq_sec = e.subseq_sec := by
  unfold ReminderEngine.loopStep
  split
  · split
    · rfl
    · simp
  · rfl

lemma start_ok (hv : cfg.valid = true) (hr : e.running = false) :
    e.start cfg =
      ({ e with
          running := true
          elapsed := 0
          count := 0
          total_sec := (cfg.total_min * 60).toNat
          intervals := [(cfg.first_min * 60).toNat, (cfg.second_min * 60).toNat]
          subseq_sec := (cfg.subseq_min * 60).toNat
          url := cfg.url
          chrome_path := cfg.chrome_path.trim
          sound_enabled := cfg.sound_enabled
          sound_file := cfg.sound_file.trim
          current_expectation := cfg.expectation.trim
          stop_event := false
          status_msg := "运行中"
          last_expected := none },
        none) := by
  unfold ReminderEngine.start
  rw [hv, hr]
  rfl

lemma valid_total_pos (hv : cfg.valid = true) : 0 < (cfg.total_min * 60).toNat := by
  unfold ReminderConfig.valid at hv
  simp only [Bool.and_eq_true, decide_eq_true_eq] at hv
  omega

lemma session_good (hv : cfg.valid = true) (hr : e.running = false) (n : Nat) :
    GoodSession cfg (e.session cfg envs n) := by
  induction n with
  | zero =>
    show GoodSession cfg (ReminderEngine.initialFire (envs 0) (e.start cfg).1)
    rw [start_ok e cfg hv hr]
    unfold ReminderEngine.initialFire
    set e1 : ReminderEngine :=
      ({ e with
          running := true
          elapsed := 0
          count := 0
          total_sec := (cfg.total_min * 60).toNat
          intervals := [(cfg.first_min * 60).toNat, (cfg.second_min * 60).toNat]
          subseq_sec := (cfg.subseq_min * 60).toNat
          url := cfg.url
          chrome_path := cfg.chrome_path.trim
          sound_enabled := cfg.sound_enabled
          sound_file := cfg.sound_file.trim
          current_expectation := cfg.expectation.trim
          stop_event := false
          status_msg := "运行中"
          last_expected := none }, (none : Option StartError)).1 with he1
    set x := ReminderEngine.openNow (envs 0) e1 with hx
    have hxc : x.count = 1 := by rw [hx]; simp [he1]
    have hxe : x.elapsed = 0 := by rw [hx]; simp [he1]
    have hxt : x.total_sec = (cfg.total_min * 60).toNat := by rw [hx]; simp [he1]
    have hxi : x.intervals = [(cfg.first_min * 60).toNat, (cfg.second_min * 60).toNat] := by
      rw [hx]; simp [he1]
    have hxs : x.subseq_sec = (cfg.subseq_min * 60).toNat := by rw [hx]; simp [he1]
    have hxv : x.stop_event = false := by rw [hx]; simp [he1]
    rw [scheduleNext_eq]
    split
    case isTrue hif =>
      refine ⟨⟨?_, ?_, ?_, ?_, ?_⟩, ?_, ?_, ?_⟩
      · simp only [stop_elapsed, stop_pending, stop_total]
        show x.elapsed + 0 < x.total_sec
        rw [hxe, hxt]
        simpa using valid_total_pos cfg hv
      · intro hr2; rw [stop_running] at hr2; exact absurd hr2 (by simp)
      · intro hr2; rw [stop_running] at hr2; exact absurd hr2 (by simp)
      · intro hr2; rw [stop_running] at hr2; exact absurd hr2 (by simp)
      · intro hr2; rw [stop_running] at hr2; exact absurd hr2 (by simp)
      · simp only [stop_total]; exact hxt
      · simp only [stop_intervals]; exact hxi
      · simp only [stop_subseq]; exact hxs
    case isFalse hif =>
      refine ⟨⟨?_, ?_, ?_, ?_, ?_⟩, ?_, ?_, ?_⟩
      · show x.elapsed + x.selectWait < x.total_sec
        exact lt_of_not_le hif
      · intro _; show 1 ≤ x.count; omega
      · intro _
        show x.selectWait = waitAfter x.intervals x.subseq_sec x.count
        exact selectWait_eq x (by omega)
      · intro _; show x.selectWait ≤ x.selectWait; exact le_rfl
      · intro _; show x.stop_event = false; exact hxv
      · exact hxt
      · exact hxi
      · exact hxs
  | succ n ih =>
    show GoodSession cfg ((e.session cfg envs n).loopStep envs)
    obtain ⟨hinv, ht, hi, hs⟩ := ih
    exact ⟨inv_loopStep _ _ hinv,
      (loopStep_total _ _).trans ht,
      (loopStep_intervals _ _).trans hi,
      (loopStep_subseq _ _).trans hs⟩

end LoopLemmas

section TickLemmas

lemma runLoop_ticks (envs : Nat → FireEnv) (e : ReminderEngine)
    (hrun : e.running = true) (hstop : e.stop_event = false) :
    ∀ k, k ≤ e.seconds_until_next →
      e.runLoop envs k = { e with seconds_until_next := e.seconds_until_next - k } := by
  intro k
  induction k with
  | zero =>
    intro _
    show e = { e with seconds_until_next := e.seconds_until_next - 0 }
    rfl
  | succ k ih =>
    intro hk
    have hk' : k ≤ e.seconds_until_next := by omega
    show ReminderEngine.loopStep envs (e.runLoop envs k) = _
    rw [ih hk']
    have h1 : ({ e with seconds_until_next := e.seconds_until_next - k } :
        ReminderEngine).running = true ∧
        ({ e with seconds_until_next := e.seconds_until_next - k } :
          ReminderEngine).stop_event = false := ⟨hrun, hstop⟩
    have h2 : 0 < ({ e with seconds_until_next := e.seconds_until_next - k } :
        ReminderEngine).seconds_until_next := by
      show 0 < e.seconds_until_next - k
      omega
    unfold ReminderEngine.loopStep
    rw [if_pos h1, if_pos h2]
    show ({ e with seconds_until_next := e.seconds_until_next - k - 1 } : ReminderEngine) = _
    rw [Nat.sub_sub]

end TickLemmas

section HistoryLemmas

lemma add_getLast (h : HistoryManager) (r : HistoryRecord) :
    (h.add r).records.getLast? = some r := by
  simp only [HistoryManager.add, pySliceLast]
  split
  case isTrue hlen =>
    split
    case isTrue h0 => exact List.getLast?_concat _
    case isFalse h0 =>
      have hk : (h.records ++ [r]).length - h.max_records ≤ h.records.length := by
        simp only [List.length_append, List.length_singleton]
        omega
      rw [List.drop_append_of_le_length hk]
      exact List.getLast?_concat _
  case isFalse hlen => exact List.getLast?_concat _

lemma add_length (h : HistoryManager) (r : HistoryRecord) (hcap : 1 ≤ h.max_records) :
    (h.add r).records.length = min (h.records.length + 1) h.max_records := by
  simp only [HistoryManager.add, pySliceLast]
  split
  case isTrue hlen =>
    rw [if_neg (by omega)]
    rw [List.length_drop]
    simp only [List.length_append, List.length_singleton] at hlen ⊢
    omega
  case isFalse hlen =>
    simp only [List.length_append, List.length_singleton] at hlen ⊢
    omega

lemma add_suffix (h : HistoryManager) (r : HistoryRecord) :
    (h.add r).records <:+ h.records ++ [r] := by
  simp only [HistoryManager.add, pySliceLast]
  split
  case isTrue hlen =>
    split
    case isTrue h0 => exact List.suffix_rfl
    case isFalse h0 => exact List.drop_suffix _ _
  case isFalse hlen => exact List.suffix_rfl

lemma add_of_le_cap (h : HistoryManager) (r : HistoryRecord)
    (hle : h.records.length + 1 ≤ h.max_records) :
    (h.add r).records = h.records ++ [r] := by
  simp only [HistoryManager.add]
  rw [if_neg (by simp only [List.length_append, List.length_singleton]; omega)]

end HistoryLemmas

section NoteLemmas

lemma updateNote_no_match (ts note : String) :
    ∀ rs : List HistoryRecord, (∀ r ∈ rs, r.timestamp ≠ ts) →
      updateNoteByTimestamp ts note rs = (none, rs) := by
  intro rs
  induction rs with
  | nil => intro _; rfl
  | cons r tl ih =>
    intro hno
    have htl := ih fun x hx => hno x (List.mem_cons_of_mem _ hx)
    simp only [updateNoteByTimestamp, htl, if_neg (hno r (List.mem_cons_self _ _))]

lemma updateNote_found (ts note : String) (m : HistoryRecord) (hm : m.timestamp = ts) :
    ∀ xs ys : List HistoryRecord, (∀ r ∈ ys, r.timestamp ≠ ts) →
      updateNoteByTimestamp ts note (xs ++ m :: ys) =
        (some { m with note := note }, xs ++ { m with note := note } :: ys) := by
  intro xs
  induction xs with
  | nil =>
    intro ys hys
    have hys' := updateNote_no_match ts note ys hys
    simp only [List.nil_append, updateNoteByTimestamp, hys']
    rw [if_pos hm]
  | cons x xs ih =>
    intro ys hys
    have hxs := ih ys hys
    simp only [List.cons_append, updateNoteByTimestamp, List.append_eq, hxs]

end NoteLemmas

section MoreLemmas

lemma stop_of_not_running (e : ReminderEngine) (h : e.running = false) : e.stop = e := by
  unfold ReminderEngine.stop
  rw [if_neg (by rw [h]; exact Bool.false_ne_true)]

lemma openNow_status_failed (env : FireEnv) (e : ReminderEngine)
    (henv : env.openOk = false) :
    (ReminderEngine.openNow env e).status_msg = "打开失败: " ++ env.errMsg := by
  simp [ReminderEngine.openNow, ReminderEngine.recordHistory, henv]

lemma openNow_history_failed (env : FireEnv) (e : ReminderEngine)
    (henv : env.openOk = false) :
    ((ReminderEngine.openNow env e).history.records.getLast?.map fun r => (r.status, r.count)) =
      some ("failed", e.count + 1) := by
  simp [ReminderEngine.openNow, ReminderEngine.recordHistory, henv, add_getLast]

end MoreLemmas

/--
Claim C1: for every session started with a valid config, before arming a
countdown for a selected wait `w` the engine checks
`elapsed_seconds + w >= total_seconds`; whenever that holds it does not arm
and does not fire that reminder, transitioning directly to
Completed/Stopped, so the cumulative consumed wait time stays strictly
below `total_seconds` and no firing ever occurs past the total duration.
Formalised as: every reachable session state satisfies
`elapsed + pending_wait < total_sec` (hence `elapsed < total_sec`, with
`total_sec` the configured duration), and for any engine state where the
completion test holds, `_schedule_next` stops without arming: `running`
becomes false, `count` does not increment (no firing), `pending_wait` is
zeroed and `elapsed` is unchanged.
-/
theorem claim_C1 (e : ReminderEngine) (cfg : ReminderConfig) (envs : Nat → FireEnv)
    (n : Nat) (d : ReminderEngine)
    (hv : cfg.valid = true) (hr : e.running = false)
    (hc : d.total_sec ≤ d.elapsed + d.selectWait) :
    (e.session cfg envs n).elapsed + (e.session cfg envs n).pending_wait <
        (e.session cfg envs n).total_sec ∧
    (e.session cfg envs n).elapsed < (e.session cfg envs n).total_sec ∧
    (e.session cfg envs n).total_sec = (cfg.total_min * 60).toNat ∧
    d.scheduleNext =
      ReminderEngine.stop
        { d with seconds_until_next := 0, pending_wait := 0, status_msg := "完成" } ∧
    d.scheduleNext.running = false ∧
    d.scheduleNext.count = d.count ∧
    d.scheduleNext.pending_wait = 0 ∧
    d.scheduleNext.elapsed = d.elapsed := by
  obtain ⟨hinv, ht, _, _⟩ := session_good e envs cfg hv hr n
  have hb := hinv.bound
  have hsched : d.scheduleNext =
      ReminderEngine.stop
        { d with seconds_until_next := 0, pending_wait := 0, status_msg := "完成" } := by
    rw [scheduleNext_eq, if_pos hc]
  refine ⟨hb, by omega, ht, hsched, ?_, ?_, ?_, ?_⟩ <;> rw [hsched] <;> simp

/-- Claim C1 witness: a concrete valid session and a concrete engine state
at its completion point. -/
theorem claim_C1_witness :
    sampleCfg.valid = true ∧ idleEngine.running = false ∧
    almostDoneEngine.total_sec ≤ almostDoneEngine.elapsed + almostDoneEngine.selectWait ∧
    (ReminderEngine.session idleEngine sampleCfg sampleEnvs 61).elapsed <
      (ReminderEngine.session idleEngine sampleCfg sampleEnvs 61).total_sec ∧
    almostDoneEngine.scheduleNext.running = false :=
  ⟨by decide, by decide, by decide,
    (claim_C1 idleEngine sampleCfg sampleEnvs 61 almostDoneEngine (by decide) (by decide)
      (by decide)).2.1,
    (claim_C1 idleEngine sampleCfg sampleEnvs 61 almostDoneEngine (by decide) (by decide)
      (by decide)).2.2.2.2.1⟩

/--
Claim C2: for every session started with a valid config, the sequence of
waits the engine successively arms between firings is exactly
`[first_interval, second_interval, subsequent_interval, subsequent_interval, ...]`
(truncated where the completion rule ends the session). Formalised as: in
every running session state at least one firing has occurred, and the wait
armed after firing `k` (the `k`-th armed wait) is `first_interval` for
`k = 1`, `second_interval` for `k = 2`, and `subsequent_interval` for
`k ≥ 3`.
-/
theorem claim_C2 (e : ReminderEngine) (cfg : ReminderConfig) (envs : Nat → FireEnv)
    (n : Nat) (hv : cfg.valid = true) (hr : e.running = false)
    (hrun : (e.session cfg envs n).running = true) :
    1 ≤ (e.session cfg envs n).count ∧
    (e.session cfg envs n).pending_wait =
      (if (e.session cfg envs n).count = 1 then (cfg.first_min * 60).toNat
       else if (e.session cfg envs n).count = 2 then (cfg.second_min * 60).toNat
       else (cfg.subseq_min * 60).toNat) := by
  obtain ⟨hinv, _, hi, hs⟩ := session_good e envs cfg hv hr n
  have hc := hinv.run_count hrun
  have hw := hinv.run_wait hrun
  rw [hi, hs] at hw
  rw [hw, waitAfter_pair _ _ _ _ hc]
  exact ⟨hc, rfl⟩

/-- Claim C2 witness: in the sample session, the firing counter is at least
one while running. -/
theorem claim_C2_witness :
    sampleCfg.valid = true ∧ idleEngine.running = false ∧
    (ReminderEngine.session idleEngine sampleCfg sampleEnvs 61).running = true ∧
    1 ≤ (ReminderEngine.session idleEngine sampleCfg sampleEnvs 61).count ∧
    (ReminderEngine.session idleEngine sampleCfg sampleEnvs 61).pending_wait = 120 :=
  ⟨by decide, by decide, by decide,
    (claim_C2 idleEngine sampleCfg sampleEnvs 61 (by decide) (by decide) (by decide)).1,
    ((claim_C2 idleEngine sampleCfg sampleEnvs 61 (by decide) (by decide) (by decide)).2).trans
      (by decide)⟩

/--
Claim C3 (counterexample): the claim says the wait armed while waiting for
the upcoming firing of ordinal `n` is `first_interval` for `n = 1` and
`second_interval` for `n = 2`. In the sample session (first = 60s,
second = 120s) the state right after the immediate firing is waiting for
the upcoming firing of ordinal `count + 1 = 2`, yet the armed wait is the
first interval (60), not the second (120): the code selects the wait by the
ordinal of the firing that just fired, not the one it is waiting for.
-/
theorem claim_C3_counterexample :
    (ReminderEngine.session idleEngine sampleCfg sampleEnvs 0).running = true ∧
    (ReminderEngine.session idleEngine sampleCfg sampleEnvs 0).count + 1 = 2 ∧
    (ReminderEngine.session idleEngine sampleCfg sampleEnvs 0).pending_wait =
      (sampleCfg.first_min * 60).toNat ∧
    ¬ (ReminderEngine.session idleEngine sampleCfg sampleEnvs 0).pending_wait =
      (sampleCfg.second_min * 60).toNat := by
  decide

/--
Claim C3 (amended): each wait is selected using the ordinal of the firing
that most recently fired, not the firing it is waiting for: with ordinal 1
the immediate firing at start, the wait armed while waiting for the
upcoming firing of ordinal `n` (necessarily `n ≥ 2`) equals
`first_interval` if `n == 2`, `second_interval` if `n == 3`, and
`subsequent_interval` if `n >= 4`.
-/
theorem claim_C3 (e : ReminderEngine) (cfg : ReminderConfig) (envs : Nat → FireEnv)
    (n : Nat) (hv : cfg.valid = true) (hr : e.running = false)
    (hrun : (e.session cfg envs n).running = true) :
    2 ≤ (e.session cfg envs n).count + 1 ∧
    (e.session cfg envs n).pending_wait =
      (if (e.session cfg envs n).count + 1 = 2 then (cfg.first_min * 60).toNat
       else if (e.session cfg envs n).count + 1 = 3 then (cfg.second_min * 60).toNat
       else (cfg.subseq_min * 60).toNat) := by
  obtain ⟨hinv, _, hi, hs⟩ := session_good e envs cfg hv hr n
  have hc := hinv.run_count hrun
  have hw := hinv.run_wait hrun
  rw [hi, hs] at hw
  rw [hw, waitAfter_pair _ _ _ _ hc]
  refine ⟨by omega, ?_⟩
  split_ifs <;> omega

/-- Claim C3 (amended) witness: the sample session right after start is
waiting for the firing of ordinal 2 and its armed wait is the first
interval. -/
theorem claim_C3_witness :
    sampleCfg.valid = true ∧ idleEngine.running = false ∧
    (ReminderEngine.session idleEngine sampleCfg sampleEnvs 0).running = true ∧
    (ReminderEngine.session idleEngine sampleCfg sampleEnvs 0).pending_wait = 60 :=
  ⟨by decide, by decide, by decide,
    ((claim_C3 idleEngine sampleCfg sampleEnvs 0 (by decide) (by decide) (by decide)).2).trans
      (by decide)⟩

/--
Claim C4: for every valid config, a successful `start()` resets
`fire_count` to 0 and `elapsed_seconds` to 0 and then immediately (in the
worker's first scheduling step) produces exactly one firing, so
`fire_count == 1` with `elapsed_seconds` still 0 at that first firing.
-/
theorem claim_C4 (e : ReminderEngine) (cfg : ReminderConfig) (env : FireEnv)
    (hv : cfg.valid = true) (hr : e.running = false) :
    (e.start cfg).2 = none ∧
    (e.start cfg).1.count = 0 ∧
    (e.start cfg).1.elapsed = 0 ∧
    (e.start cfg).1.running = true ∧
    (ReminderEngine.initialFire env (e.start cfg).1).count = 1 ∧
    (ReminderEngine.initialFire env (e.start cfg).1).elapsed = 0 := by
  rw [start_ok e cfg hv hr]
  refine ⟨rfl, rfl, rfl, rfl, ?_, ?_⟩ <;>
    unfold ReminderEngine.initialFire <;> simp

/-- Claim C4 witness: the sample config on a fresh engine. -/
theorem claim_C4_witness :
    sampleCfg.valid = true ∧ idleEngine.running = false ∧
    (ReminderEngine.initialFire sampleEnv (idleEngine.start sampleCfg).1).count = 1 :=
  ⟨by decide, by decide,
    (claim_C4 idleEngine sampleCfg sampleEnv (by decide) (by decide)).2.2.2.2.1⟩

/--
Claim C5: `start(config)` fails synchronously — with `InvalidConfigError`
when `config.url` lacks an `http://` or `https://` prefix or any of the
four time values is non-positive (both rejected by the payload
validation), and with `AlreadyRunningError` when called while
`running == true` — and in every failure case the engine state is
unchanged (same record, so `fire_count`, `elapsed_seconds` and `running`
keep their prior values).
-/
theorem claim_C5 (e : ReminderEngine) (cfg : ReminderConfig) :
    (cfg.valid = false → e.start cfg = (e, some StartError.invalidConfig)) ∧
    (cfg.valid = true → e.running = true →
      e.start cfg = (e, some StartError.alreadyRunning)) ∧
    ((e.start cfg).2.isSome = true →
      (e.start cfg).1 = e ∧ (e.start cfg).1.running = e.running ∧
      (e.start cfg).1.count = e.count ∧ (e.start cfg).1.elapsed = e.elapsed) := by
  refine ⟨?_, ?_, ?_⟩
  · intro h
    unfold ReminderEngine.start
    rw [if_pos h]
  · intro hv hr
    unfold ReminderEngine.start
    rw [if_neg (by simp [hv]), if_pos hr]
  · intro hs
    by_cases h1 : cfg.valid = false
    · have hst : e.start cfg = (e, some StartError.invalidConfig) := by
        unfold ReminderEngine.start
        rw [if_pos h1]
      rw [hst]
      exact ⟨rfl, rfl, rfl, rfl⟩
    · by_cases h2 : e.running = true
      · have hst : e.start cfg = (e, some StartError.alreadyRunning) := by
          unfold ReminderEngine.start
          rw [if_neg h1, if_pos h2]
        rw [hst]
        exact ⟨rfl, rfl, rfl, rfl⟩
      · have hst : (e.start cfg).2 = none := by
          unfold ReminderEngine.start
          rw [if_neg h1, if_neg h2]
        rw [hst] at hs
        exact absurd hs (by simp)

/-- Claim C5 witness: a scheme-less URL is rejected with the engine
untouched, and starting a running engine is rejected. -/
theorem claim_C5_witness :
    badCfg.valid = false ∧
    idleEngine.start badCfg = (idleEngine, some StartError.invalidConfig) ∧
    sampleCfg.valid = true ∧ runningEngine.running = true ∧
    runningEngine.start sampleCfg = (runningEngine, some StartError.alreadyRunning) :=
  ⟨by decide, (claim_C5 idleEngine badCfg).1 (by decide), by decide, by decide,
    (claim_C5 runningEngine sampleCfg).2.1 (by decide) (by decide)⟩

/--
Claim C6: `stop()` is idempotent: from any engine state, calling `stop()`
twice yields the same state as calling it once, raises no error, and
calling `stop()` on an already-stopped engine is a no-op with no duplicate
state transition.
-/
theorem claim_C6 (e : ReminderEngine) :
    e.stop.stop = e.stop ∧ (e.running = false → e.stop = e) :=
  ⟨stop_of_not_running e.stop (stop_running e), fun h => stop_of_not_running e h⟩

/-- Claim C6 witness: a concrete idle engine. -/
theorem claim_C6_witness :
    idleEngine.stop.stop = idleEngine.stop ∧ idleEngine.running = false ∧
    idleEngine.stop = idleEngine :=
  ⟨(claim_C6 idleEngine).1, by decide, (claim_C6 idleEngine).2 (by decide)⟩

/--
Claim C7: if the URL-open side effect raises an exception during a firing,
the failure never propagates out of the engine and never halts the timing
loop: the engine writes a history record with status `failed`, downgrades
the failure to a `status_message` update, and still schedules and fires
the next interval on time. Formalised on a running engine whose countdown
has just expired and whose next interval does not trigger completion: the
firing step with a failing open appends a `failed` record for the new
firing ordinal, sets the failure status message, leaves the engine
running with the next interval armed, and exactly
`seconds_until_next + 1` further loop iterations produce the next firing.
-/
theorem claim_C7 (e : ReminderEngine) (envs : Nat → FireEnv)
    (hrun : e.running = true) (hstop : e.stop_event = false)
    (hsec : e.seconds_until_next = 0) (hcnt : 1 ≤ e.count)
    (henv : (envs e.count).openOk = false)
    (hroom : e.elapsed + e.pending_wait +
        waitAfter e.intervals e.subseq_sec (e.count + 1) < e.total_sec) :
    ((e.loopStep envs).history.records.getLast?.map fun r => (r.status, r.count)) =
        some ("failed", e.count + 1) ∧
    (e.loopStep envs).status_msg = "打开失败: " ++ (envs e.count).errMsg ∧
    (e.loopStep envs).running = true ∧
    (e.loopStep envs).pending_wait = waitAfter e.intervals e.subseq_sec (e.count + 1) ∧
    (e.loopStep envs).seconds_until_next =
      waitAfter e.intervals e.subseq_sec (e.count + 1) ∧
    (ReminderEngine.runLoop envs (e.loopStep envs)
        ((e.loopStep envs).seconds_until_next + 1)).count = e.count + 2 := by
  have hls : e.loopStep envs = e.fireStep (envs e.count) := by
    unfold ReminderEngine.loopStep
    rw [if_pos ⟨hrun, hstop⟩, if_neg (by omega)]
  set env := envs e.count with henvdef
  set x := ReminderEngine.openNow env { e with elapsed := e.elapsed + e.pending_wait }
    with hx
  have hxc : x.count = e.count + 1 := by rw [hx]; simp
  have hxe : x.elapsed = e.elapsed + e.pending_wait := by rw [hx]; simp
  have hxt : x.total_sec = e.total_sec := by rw [hx]; simp
  have hxi : x.intervals = e.intervals := by rw [hx]; simp
  have hxs : x.subseq_sec = e.subseq_sec := by rw [hx]; simp
  have hxr : x.running = true := by rw [hx]; simp [hrun]
  have hxv : x.stop_event = false := by rw [hx]; simp [hstop]
  have hxw : x.selectWait = waitAfter e.intervals e.subseq_sec (e.count + 1) := by
    rw [selectWait_eq x (by omega), hxc, hxi, hxs]
  have harm : ¬ (x.total_sec ≤ x.elapsed + x.selectWait) := by
    rw [hxt, hxe, hxw]; omega
  have hfs : e.fireStep env =
      { x with pending_wait := x.selectWait, last_expected := some x.selectWait,
               seconds_until_next := x.selectWait } := by
    unfold ReminderEngine.fireStep
    rw [← hx, scheduleNext_eq, if_neg harm]
  refine ⟨?_, ?_, ?_, ?_, ?_, ?_⟩
  · rw [hls, hfs]
    show (x.history.records.getLast?.map fun r => (r.status, r.count)) =
      some ("failed", e.count + 1)
    rw [hx]
    exact openNow_history_failed env { e with elapsed := e.elapsed + e.pending_wait } henv
  · rw [hls, hfs]
    show x.status_msg = "打开失败: " ++ env.errMsg
    rw [hx]
    exact openNow_status_failed env { e with elapsed := e.elapsed + e.pending_wait } henv
  · rw [hls, hfs]
    show x.running = true
    exact hxr
  · rw [hls, hfs]
    show x.selectWait = waitAfter e.intervals e.subseq_sec (e.count + 1)
    exact hxw
  · rw [hls, hfs]
    show x.selectWait = waitAfter e.intervals e.subseq_sec (e.count + 1)
    exact hxw
  · rw [hls, hfs]
    set z : ReminderEngine :=
      { x with
          pending_wait := x.selectWait
          last_expected := some x.selectWait
          seconds_until_next := x.selectWait } with hz
    have hzr : z.running = true := hxr
    have hzv : z.stop_event = false := hxv
    have hzs : z.seconds_until_next = x.selectWait := rfl
    have htick := runLoop_ticks envs z hzr hzv x.selectWait (by rw [hzs])
    rw [hzs]
    show (ReminderEngine.loopStep envs
      (ReminderEngine.runLoop envs z x.selectWait)).count = e.count + 2
    rw [htick]
    unfold ReminderEngine.loopStep
    rw [if_pos ⟨hzr, hzv⟩,
      if_neg (by show ¬ (0 < z.seconds_until_next - x.selectWait); rw [hzs]; omega)]
    rw [fireStep_count]
    show z.count + 1 = e.count + 2
    have hzc : z.count = x.count := rfl
    omega

/-- Claim C7 witness: the concrete running engine whose third countdown
just expired, with every URL open failing. -/
theorem claim_C7_witness :
    runningEngine.running = true ∧
    (failEnvs runningEngine.count).openOk = false ∧
    ((runningEngine.loopStep failEnvs).history.records.getLast?.map
      fun r => (r.status, r.count)) = some ("failed", 2) ∧
    (runningEngine.loopStep failEnvs).running = true :=
  ⟨by decide, by decide,
    (claim_C7 runningEngine failEnvs (by decide) (by decide) (by decide) (by decide)
      (by decide) (by decide)).1,
    (claim_C7 runningEngine failEnvs (by decide) (by decide) (by decide) (by decide)
      (by decide) (by decide)).2.2.1⟩

/--
Claim C8 (counterexample): the claim quantifies over every retention cap
`N`, but with `N = 0` Python's trim `records[-0:]` is `records[0:]`, the
whole list, so `add` keeps the new record and more than `N = 0` records
remain.
-/
theorem claim_C8_counterexample :
    (HistoryManager.add { max_records := 0, records := [] }
        (sampleRecord "2024-01-01T09:00:00" 1)).records.length = 1 ∧
    ¬ (HistoryManager.add { max_records := 0, records := [] }
        (sampleRecord "2024-01-01T09:00:00" 1)).records.length ≤ 0 := by
  decide

/--
Claim C8 (amended): for every HistoryStore with retention cap `N ≥ 1`
holding `k` records, `add(record)` appends the record at the end; if
`k + 1 > N` the oldest record(s) are dropped so that at most `N` records
remain (exactly `min (k+1) N`), the newest record is always retained, and
the insertion order of the retained records is preserved (the result is a
suffix of the appended list).
-/
theorem claim_C8 (h : HistoryManager) (r : HistoryRecord) (hcap : 1 ≤ h.max_records) :
    (h.add r).records.length ≤ h.max_records ∧
    (h.add r).records.length = min (h.records.length + 1) h.max_records ∧
    (h.add r).records.getLast? = some r ∧
    (h.add r).records <:+ h.records ++ [r] ∧
    (h.records.length + 1 ≤ h.max_records → (h.add r).records = h.records ++ [r]) := by
  refine ⟨?_, add_length h r hcap, add_getLast h r, add_suffix h r, add_of_le_cap h r⟩
  rw [add_length h r hcap]
  omega

/-- Claim C8 (amended) witness: a store at capacity 2 drops its oldest
record and keeps the newest. -/
theorem claim_C8_witness :
    1 ≤ (HistoryManager.mk 2 [sampleRecord "a" 1, sampleRecord "b" 2]).max_records ∧
    (HistoryManager.add (HistoryManager.mk 2 [sampleRecord "a" 1, sampleRecord "b" 2])
        (sampleRecord "c" 3)).records.getLast? = some (sampleRecord "c" 3) :=
  ⟨by decide,
    (claim_C8 (HistoryManager.mk 2 [sampleRecord "a" 1, sampleRecord "b" 2])
      (sampleRecord "c" 3) (by decide)).2.2.1⟩

/--
Claim C9: for every history store and timestamp `t`, `update_note(t, note)`
rewrites the note field of the most recent record whose timestamp equals
`t` when one exists (leaving all other records in place); when no stored
record matches `t` it fails with a not-found error and leaves every stored
record exactly unchanged.
-/
theorem claim_C9 (rs xs ys : List HistoryRecord) (m : HistoryRecord) (ts note : String) :
    ((∀ r ∈ rs, r.timestamp ≠ ts) →
      updateNoteByTimestamp ts note rs = (none, rs) ∧
      addNoteWithTimestamp rs ts note = Except.error NoteError.notFound) ∧
    (m.timestamp = ts → (∀ r ∈ ys, r.timestamp ≠ ts) →
      updateNoteByTimestamp ts note (xs ++ m :: ys) =
        (some { m with note := note }, xs ++ { m with note := note } :: ys)) := by
  constructor
  · intro hno
    have h1 := updateNote_no_match ts note rs hno
    refine ⟨h1, ?_⟩
    unfold addNoteWithTimestamp
    rw [h1]
  · intro hm hys
    exact updateNote_found ts note m hm xs ys hys

/-- Claim C9 witness: a missing timestamp yields not-found with the store
unchanged; a present timestamp gets its note rewritten. -/
theorem claim_C9_witness :
    (∀ r ∈ [sampleRecord "a" 1], r.timestamp ≠ "zzz") ∧
    addNoteWithTimestamp [sampleRecord "a" 1] "zzz" "hello" =
      Except.error NoteError.notFound ∧
    (sampleRecord "a" 1).timestamp = "a" ∧
    updateNoteByTimestamp "a" "hello" ([] ++ sampleRecord "a" 1 :: []) =
      (some { sampleRecord "a" 1 with note := "hello" },
        [] ++ { sampleRecord "a" 1 with note := "hello" } :: []) :=
  ⟨by decide,
    ((claim_C9 [sampleRecord "a" 1] [] [] (sampleRecord "a" 1) "zzz" "hello").1
      (by decide)).2,
    by decide,
    (claim_C9 [] [] [] (sampleRecord "a" 1) "a" "hello").2 (by decide) (by decide)⟩

/--
Claim C10 (implicit): `stop()` called on a running engine changes only the
running flag and the status message (and sets the stop event, cancelling
the pending countdown); `fire_count` (`count`), `elapsed_seconds`,
`seconds_until_next` and `pending_wait_seconds` all retain the values they
had at the moment of the call, so the post-session status snapshot still
reports the session's final counts.
-/
theorem claim_C10 (e : ReminderEngine) (h : e.running = true) :
    e.stop = { e with running := false, stop_event := true, status_msg := "已停止" } ∧
    e.stop.running = false ∧
    e.stop.count = e.count ∧
    e.stop.elapsed = e.elapsed ∧
    e.stop.seconds_until_next = e.seconds_until_next ∧
    e.stop.pending_wait = e.pending_wait ∧
    e.stop.history = e.history ∧
    e.stop.total_sec = e.total_sec ∧
    e.stop.url = e.url := by
  have h1 : e.stop =
      { e with running := false, stop_event := true, status_msg := "已停止" } := by
    unfold ReminderEngine.stop
    rw [if_pos h]
  rw [h1]
  exact ⟨rfl, rfl, rfl, rfl, rfl, rfl, rfl, rfl, rfl⟩

/-- Claim C10 witness: stopping the concrete running engine keeps its
counters. -/
theorem claim_C10_witness :
    runningEngine.running = true ∧
    runningEngine.stop.count = runningEngine.count ∧
    runningEngine.stop.elapsed = runningEngine.elapsed :=
  ⟨by decide, (claim_C10 runningEngine (by decide)).2.2.1,
    (claim_C10 runningEngine (by decide)).2.2.2.1⟩

end ReminderOpenIt
